import Mathlib

/-!
Verification of the rswiki-wrapper route-compilation / fallible-request /
typed-decode pipeline.  Every definition below is a shallow embedding of the
corresponding Python source in `src/rswiki_wrapper/`; machine behaviour such
as uncaught exceptions is modelled with `Option`/`Except` (`none` / `.error`
meaning the Python code raises).
-/

namespace RsWiki

/-- Wire values of `enums.BaseUrl` (src/rswiki_wrapper/enums.py). -/
inductive BaseUrl where
  | weirdGloop
  | mediaWiki
  | mediaWikiOsrs
  | realtimeWikiPrice
deriving DecidableEq, Repr

/-- `BaseUrl.value` in the source. -/
def BaseUrl.value : BaseUrl → String
  | .weirdGloop => "https://api.weirdgloop.org"
  | .mediaWiki => "https://runescape.wiki/api.php"
  | .mediaWikiOsrs => "https://oldschool.runescape.wiki/api.php"
  | .realtimeWikiPrice => "https://prices.runescape.wiki/api/v1"

/-- `enums.Locale` (src/rswiki_wrapper/enums.py). -/
inductive Locale where
  | en
  | pt
deriving DecidableEq, Repr

def Locale.value : Locale → String
  | .en => "en"
  | .pt => "pt"

/-- `enums.WgGameType` wire values. -/
inductive WgGameType where
  | rs
  | osrs
  | rsFsw2022
  | osrsFsw2022
deriving DecidableEq, Repr

def WgGameType.value : WgGameType → String
  | .rs => "rs"
  | .osrs => "osrs"
  | .rsFsw2022 => "rs-fsw-2022"
  | .osrsFsw2022 => "osrs-fsw-2022"

/-- `enums.WgTimeFilter` wire values. -/
inductive WgTimeFilter where
  | all
  | sample
  | last90d
deriving DecidableEq, Repr

def WgTimeFilter.value : WgTimeFilter → String
  | .all => "all"
  | .sample => "sample"
  | .last90d => "last90d"

/-- `enums.RtGameType` wire values. -/
inductive RtGameType where
  | osrs
  | dmm
  | fsw
deriving DecidableEq, Repr

def RtGameType.value : RtGameType → String
  | .osrs => "osrs"
  | .dmm => "dmm"
  | .fsw => "fsw"

/-- `enums.TimeSeriesGameType` wire values. -/
inductive TimeSeriesGameType where
  | osrs
  | fsw
deriving DecidableEq, Repr

def TimeSeriesGameType.value : TimeSeriesGameType → String
  | .osrs => "osrs"
  | .fsw => "fsw"

/-- `enums.RtTimeFilter` wire values. -/
inductive RtTimeFilter where
  | fiveMins
  | oneHour
deriving DecidableEq, Repr

def RtTimeFilter.value : RtTimeFilter → String
  | .fiveMins => "5m"
  | .oneHour => "1h"

/-- A query-parameter value: Python `str | int`. -/
inductive PValue where
  | s (v : String)
  | i (v : Int)
deriving DecidableEq, Repr

/-- Parameter dictionaries keep Python-dict semantics: insertion ordered,
assignments to an existing key overwrite in place. -/
abbrev Params := List (String × PValue)

/-- `params[k] = v` on a Python dict: overwrite in place if the key exists,
otherwise append. -/
def dictInsert (k : String) (v : PValue) : Params → Params
  | [] => [(k, v)]
  | (k', v') :: rest =>
      if k' = k then (k, v) :: rest else (k', v') :: dictInsert k v rest

/-- `dict.update(other)` iterates the other dict's items in order. -/
def dictUpdate (d other : Params) : Params :=
  other.foldl (fun acc kv => dictInsert kv.1 kv.2 acc) d

/-- First-match lookup (dict keys are unique, so this is dict access). -/
def lookupP (k : String) : Params → Option PValue
  | [] => none
  | (k', v) :: rest => if k' = k then some v else lookupP k rest

/-- A positional argument to `Route.compile`: Python `str | int`. -/
inductive ArgVal where
  | s (v : String)
  | i (v : Int)
deriving DecidableEq, Repr

/-- Python `str(arg)` for the argument types `compile` accepts. -/
def ArgVal.str : ArgVal → String
  | .s v => v
  | .i v => toString v

/-- Number of non-overlapping occurrences of the placeholder `"\x7b\x7d"`
in a character list (Python `uri.count` for the placeholder). -/
def countPH : List Char → Nat
  | [] => 0
  | [_] => 0
  | a :: b :: rest =>
      if a = '\x7b' ∧ b = '\x7d' then countPH rest + 1 else countPH (b :: rest)

/-- Python `s.replace("\x7b\x7d", rep, 1)`: replace the leftmost placeholder
occurrence, if any. -/
def replaceOnce (rep : List Char) : List Char → List Char
  | [] => []
  | [c] => [c]
  | a :: b :: rest =>
      if a = '\x7b' ∧ b = '\x7d' then rep ++ rest
      else a :: replaceOnce rep (b :: rest)

/-- `routes.Route` (src/rswiki_wrapper/routes.py): immutable base + uri
template. -/
structure Route where
  base : BaseUrl
  uri : String
deriving DecidableEq, Repr

/-- `routes.CompiledRoute`: base, concrete uri, query params. -/
structure CompiledRoute where
  base : BaseUrl
  uri : String
  params : Params
deriving DecidableEq, Repr

/-- `CompiledRoute.with_params`: merge via dict update. -/
def CompiledRoute.with_params (c : CompiledRoute) (ps : Params) : CompiledRoute :=
  { c with params := dictUpdate c.params ps }

/-- `Route.compile(*args)`: for each arg in order, replace the leftmost
placeholder with `str(arg)`.  No validation of argument counts. -/
def Route.compile (r : Route) (args : List ArgVal) : CompiledRoute :=
  { base := r.base
    uri := String.mk (args.foldl (fun u a => replaceOnce a.str.data u) r.uri.data)
    params := [] }

/-- Route constants from src/rswiki_wrapper/routes.py. -/
def VOS : Route := ⟨.weirdGloop, "/runescape/vos"⟩

def VOS_HISTORY : Route := ⟨.weirdGloop, "/runescape/vos/history"⟩

def LATEST_EXCHANGE_UPDATE : Route := ⟨.weirdGloop, "/exchange"⟩

def LATEST_EXCHANGE_PRICE : Route := ⟨.weirdGloop, "/exchange/history/\x7b\x7d/latest"⟩

def SOCIAL_FEED : Route := ⟨.weirdGloop, "/runescape/social"⟩

def LATEST_SOCIAL_FEED : Route := ⟨.weirdGloop, "/runescape/social/last"⟩

def HISTORICAL_EXCHANGE_PRICE : Route := ⟨.weirdGloop, "/exchange/history/\x7b\x7d/\x7b\x7d"⟩

def TMS_CURRENT : Route := ⟨.weirdGloop, "/runescape/tms/current"⟩

def TMS_NEXT : Route := ⟨.weirdGloop, "/runescape/tms/next"⟩

def TMS_SEARCH : Route := ⟨.weirdGloop, "/runescape/tms/search"⟩

def REALTIME_PRICE : Route := ⟨.realtimeWikiPrice, "/\x7b\x7d/latest"⟩

/-- Modelled from the spec: `routes.REALTIME_AVG_PRICE` is referenced by
`RealtimeService.get_avg_price` but the constant is missing from
src/rswiki_wrapper/routes.py; the spec describes the realtime time-averaged
price operation as a "path parameterized by (game type, time filter)". -/
def REALTIME_AVG_PRICE : Route := ⟨.realtimeWikiPrice, "/\x7b\x7d/\x7b\x7d"⟩

/-- Raw JSON values as delivered by the transport layer. -/
inductive Json where
  | null
  | bool (b : Bool)
  | num (n : Int)
  | str (s : String)
  | arr (xs : List Json)
  | obj (kvs : List (String × Json))

/-- Python truthiness of a JSON value (`if value:`). -/
def Json.truthy : Json → Bool
  | .null => false
  | .bool b => b
  | .num n => n != 0
  | .str s => !(s = "")
  | .arr xs => !xs.isEmpty
  | .obj kvs => !kvs.isEmpty

/-- Dict access `data[k]` on a JSON object body (first match; keys unique). -/
def jLookup (k : String) : List (String × Json) → Option Json
  | [] => none
  | (k', v) :: rest => if k' = k then some v else jLookup k rest

/-- `k in data` on a JSON object body. -/
def jHasKey (k : String) (kvs : List (String × Json)) : Bool :=
  (jLookup k kvs).isSome

/-- A naive `datetime.datetime` value: wall-clock components only. -/
structure PyDateTime where
  year : Int
  month : Int
  day : Int
  hour : Int
  minute : Int
  second : Int
  micro : Int
deriving DecidableEq, Repr

/-- Civil date from days since the Unix epoch (proleptic Gregorian). -/
def civilFromDays (z0 : Int) : Int × Int × Int :=
  let z := z0 + 719468
  let era := z / 146097
  let doe := z - era * 146097
  let yoe := (doe - doe / 1460 + doe / 36524 - doe / 146096) / 365
  let y := yoe + era * 400
  let doy := doe - (365 * yoe + yoe / 4 - yoe / 100)
  let mp := (5 * doy + 2) / 153
  let d := doy - (153 * mp + 2) / 5 + 1
  let m := mp + (if mp < 10 then 3 else -9)
  (y + (if m ≤ 2 then 1 else 0), m, d)

/-- `datetime.fromtimestamp(secs + micro/1e6)` in a fixed-offset local zone:
`tzOff` is the local UTC offset in seconds (the Python result depends on the
host timezone; 0 models a UTC host). -/
def fromTimestamp (tzOff : Int) (secs : Int) (micro : Int) : PyDateTime :=
  let total := secs + tzOff
  let z := total / 86400
  let sod := total % 86400
  let c := civilFromDays z
  ⟨c.1, c.2.1, c.2.2, sod / 3600, (sod % 3600) / 60, sod % 60, micro⟩

/-- `BaseResponse._dt_from_epoch` (src/rswiki_wrapper/models/base.py):
`datetime.fromtimestamp(timestamp / 1e3 if millis else timestamp)`. -/
def dt_from_epoch (tzOff : Int) (timestamp : Int) (millis : Bool) : PyDateTime :=
  if millis then fromTimestamp tzOff (timestamp / 1000) ((timestamp % 1000) * 1000)
  else fromTimestamp tzOff timestamp 0

/-- Python `s.rstrip("Z")`: drop every trailing `Z`. -/
def rstripZ (s : List Char) : List Char :=
  ((s.reverse).dropWhile (fun c => c = 'Z')).reverse

/-- Decimal digit value of a character, if it is a digit. -/
def digitVal (c : Char) : Option Nat :=
  if '0' ≤ c ∧ c ≤ '9' then some (c.toNat - 48) else none

/-- Parse exactly two decimal digits. -/
def parse2 : List Char → Option (Nat × List Char)
  | a :: b :: rest => do
      let x ← digitVal a
      let y ← digitVal b
      pure (x * 10 + y, rest)
  | _ => none

/-- Parse exactly four decimal digits. -/
def parse4 : List Char → Option (Nat × List Char)
  | a :: b :: c :: d :: rest => do
      let w ← digitVal a
      let x ← digitVal b
      let y ← digitVal c
      let z ← digitVal d
      pure (((w * 10 + x) * 10 + y) * 10 + z, rest)
  | _ => none

/-- Expect one specific character. -/
def expectChar (c : Char) : List Char → Option (List Char)
  | x :: rest => if x = c then some rest else none
  | [] => none

/-- Gregorian leap-year test. -/
def isLeap (y : Int) : Bool :=
  (y % 4 = 0 ∧ y % 100 ≠ 0) ∨ y % 400 = 0

/-- Number of days in a month. -/
def daysInMonth (y m : Int) : Int :=
  if m = 2 then (if isLeap y then 29 else 28)
  else if m = 4 ∨ m = 6 ∨ m = 9 ∨ m = 11 then 30
  else 31

/-- Range validation performed by the `datetime` constructor. -/
def mkDateTime (y mo d h mi s : Nat) : Option PyDateTime :=
  if 1 ≤ y ∧ 1 ≤ mo ∧ mo ≤ 12 ∧ 1 ≤ d ∧ (d : Int) ≤ daysInMonth y mo
      ∧ h ≤ 23 ∧ mi ≤ 59 ∧ s ≤ 59 then
    some ⟨y, mo, d, h, mi, s, 0⟩
  else none

/-- `datetime.fromisoformat` for the shapes this client receives:
`YYYY-MM-DD` optionally followed by a single separator character and
`HH:MM:SS`.  `none` models the `ValueError` Python raises. -/
def fromIsoFormat (cs : List Char) : Option PyDateTime := do
  let (y, r1) ← parse4 cs
  let r2 ← expectChar '-' r1
  let (mo, r3) ← parse2 r2
  let r4 ← expectChar '-' r3
  let (d, r5) ← parse2 r4
  match r5 with
  | [] => mkDateTime y mo d 0 0 0
  | _sep :: r6 => do
      let (h, r7) ← parse2 r6
      let r8 ← expectChar ':' r7
      let (mi, r9) ← parse2 r8
      let r10 ← expectChar ':' r9
      let (s, r11) ← parse2 r10
      match r11 with
      | [] => mkDateTime y mo d h mi s
      | _ => none

/-- `BaseResponse._dt_from_iso`: `datetime.fromisoformat(timestamp.rstrip("Z"))`.
The trailing `Z` is stripped and the rest parsed as a naive timestamp. -/
def dt_from_iso (timestamp : String) : Option PyDateTime :=
  fromIsoFormat (rstripZ timestamp.data)

/-- Python `s.split(sep)` for a single-character separator. -/
def splitOnChar (sep : Char) : List Char → List (List Char)
  | [] => [[]]
  | c :: rest =>
      let r := splitOnChar sep rest
      if c = sep then [] :: r
      else
        match r with
        | h :: t => (c :: h) :: t
        | [] => [[c]]

/-- Python `s.split(" de ")`, scanning left to right. -/
def splitOnDe : List Char → List (List Char)
  | ' ' :: 'd' :: 'e' :: ' ' :: rest => [] :: splitOnDe rest
  | c :: rest =>
      match splitOnDe rest with
      | h :: t => (c :: h) :: t
      | [] => [[c]]
  | [] => [[]]

/-- ASCII lower-casing of one character. -/
def charLower (c : Char) : Char :=
  if 'A' ≤ c ∧ c ≤ 'Z' then Char.ofNat (c.toNat + 32) else c

/-- ASCII lower-casing of a string, via its characters. -/
def lowerStr (s : List Char) : String :=
  String.mk (s.map charLower)

/-- English month number from a lowercased month name
(the `%B` directive of `strptime` matches case-insensitively). -/
def monthFromName (s : String) : Option Nat :=
  if s = "january" then some 1
  else if s = "february" then some 2
  else if s = "march" then some 3
  else if s = "april" then some 4
  else if s = "may" then some 5
  else if s = "june" then some 6
  else if s = "july" then some 7
  else if s = "august" then some 8
  else if s = "september" then some 9
  else if s = "october" then some 10
  else if s = "november" then some 11
  else if s = "december" then some 12
  else none

/-- Parse one or two decimal digits as `%d` does (value 1..31 by regex). -/
def parseDayToken (s : String) : Option Nat :=
  match s.data with
  | [a] => do
      let x ← digitVal a
      if 1 ≤ x then pure x else none
  | [a, b] => do
      let x ← digitVal a
      let y ← digitVal b
      let v := x * 10 + y
      if 1 ≤ v ∧ v ≤ 31 then pure v else none
  | _ => none

/-- Parse up to four decimal digits as `%Y` does. -/
def parseYearToken (s : String) : Option Nat :=
  match s.data with
  | [] => none
  | cs =>
      if cs.length ≤ 4 ∧ cs.all (fun c => (digitVal c).isSome) then
        some (cs.foldl (fun acc c => acc * 10 + (c.toNat - 48)) 0)
      else none

/-- `BaseResponse._dt_from_strp`: `datetime.strptime(date, "%d %B %Y")`.
`none` models the `ValueError` Python raises on a non-matching string. -/
def dt_from_strp (date : String) : Option PyDateTime :=
  match splitOnChar ' ' date.data with
  | [dTok, mTok, yTok] => do
      let d ← parseDayToken (String.mk dTok)
      let m ← monthFromName (lowerStr mTok)
      let y ← parseYearToken (String.mk yTok)
      mkDateTime y m d 0 0 0
  | _ => none

/-- `PT_MONTH_MAPPING` (src/rswiki_wrapper/models/base.py), including the
source's misspellings `"marchar"` and `"Semptember"`. -/
def PT_MONTH_MAPPING (s : String) : Option String :=
  if s = "janeiro" then some "January"
  else if s = "fevereiro" then some "February"
  else if s = "marchar" then some "March"
  else if s = "abril" then some "April"
  else if s = "maio" then some "May"
  else if s = "junho" then some "June"
  else if s = "julho" then some "July"
  else if s = "agosto" then some "August"
  else if s = "setembro" then some "Semptember"
  else if s = "outubro" then some "October"
  else if s = "novembro" then some "November"
  else if s = "dezembro" then some "December"
  else none

/-- `BaseResponse._dt_from_pt`: split on `" de "`, translate the month via
`PT_MONTH_MAPPING`, reparse with `_dt_from_strp`.  `none` models the
unpacking `ValueError`, the mapping `KeyError`, or the strptime failure. -/
def dt_from_pt (date : String) : Option PyDateTime :=
  match splitOnDe date.data with
  | [day, month, year] => do
      let m ← PT_MONTH_MAPPING (lowerStr month)
      dt_from_strp (String.mk day ++ " " ++ m ++ " " ++ String.mk year)
  | _ => none

/-- The date-parsing fallback chain of `TmsSearchResponse.from_raw`
(src/rswiki_wrapper/models/weird_gloop.py): try the English
`"%d %B %Y"` parse, and only on its `ValueError` try the Portuguese parse. -/
def tmsParseDate (date : String) : Option PyDateTime :=
  match dt_from_strp date with
  | some d => some d
  | none => dt_from_pt date

/-- The `Result` type (src/rswiki_wrapper/result.py): `Ok` or `Err`. -/
inductive PyResult (T E : Type) where
  | ok (value : T)
  | err (error : E)
deriving DecidableEq, Repr

/-- `Result.is_ok`. -/
def PyResult.is_ok : PyResult T E → Bool
  | .ok _ => true
  | .err _ => false

/-- `Result.is_err`. -/
def PyResult.is_err : PyResult T E → Bool
  | .ok _ => false
  | .err _ => true

/-- `Result.unwrap`; `strE` models Python `str` on the error payload.
`Except.error` carries the `UnwrapError` message (already prefixed by
`errors.UnwrapError.__init__`). -/
def PyResult.unwrap (strE : E → String) : PyResult T E → Except String T
  | .ok v => .ok v
  | .err e => .error ("Unwrap failed: Called unwrap on an error value - " ++ strE e)

/-- `Result.unwrap_err`; `strT` models Python `str` on the success payload. -/
def PyResult.unwrap_err (strT : T → String) : PyResult T E → Except String E
  | .ok v => .error ("Unwrap failed: Called unwrap error on an non error value - " ++ strT v)
  | .err e => .ok e

/-- `msg` contains `s` as a substring. -/
def strContains (msg s : String) : Prop :=
  ∃ a b, msg = a ++ s ++ b

/-- `models.ErrorResponse` (src/rswiki_wrapper/models/weird_gloop.py):
fields are copied verbatim from the raw payload. -/
structure ErrorResponse where
  success : Json
  error : Json

/-- `ErrorResponse.from_raw`: iterates `__dataclass_fields__` in declaration
order (`success`, then `error`) and does `data[attr]` for each; a missing key
raises `KeyError`, modelled as `none`. -/
def ErrorResponse.from_raw (data : List (String × Json)) : Option ErrorResponse := do
  let success ← jLookup "success" data
  let error ← jLookup "error" data
  pure ⟨success, error⟩

/-- `models.ExchangePriceResponse`.  `id`, `price` and `volume` are copied
verbatim from the inner record; `identifier` is only assigned afterwards by
the service loop, so it is `none` straight out of `from_raw`. -/
structure ExchangePriceResponse where
  id : Json
  price : Json
  volume : Json
  timestamp : PyDateTime
  identifier : Option String

/-- `ExchangePriceResponse.from_raw`: reads `id`, `price`, `volume` and
`timestamp` from the record (`KeyError` → `none`), converting an `int`
timestamp as epoch milliseconds and a string via `_dt_from_iso`; `identifier`
is skipped. -/
def ExchangePriceResponse.from_raw (tzOff : Int) (data : List (String × Json)) :
    Option ExchangePriceResponse := do
  let idv ← jLookup "id" data
  let price ← jLookup "price" data
  let volume ← jLookup "volume" data
  let tsRaw ← jLookup "timestamp" data
  let ts ← match tsRaw with
    | .num n => some (dt_from_epoch tzOff n true)
    | .bool b => some (dt_from_epoch tzOff (if b then 1 else 0) true)
    | .str s => dt_from_iso s
    | _ => none
  pure ⟨idv, price, volume, ts, none⟩

/-- The decode stage of `WeirdGloopService.get_latest_exchange_price`
(src/rswiki_wrapper/services/weird_gloop.py) applied to the fetched JSON
object: if the object has an `error` key, decode the error model and return
`Err`; otherwise decode one `ExchangePriceResponse` per entry, stamping the
entry key onto `identifier`.  `none` models an uncaught exception. -/
def decodeLatestExchange (tzOff : Int) (data : List (String × Json)) :
    Option (PyResult (List ExchangePriceResponse) ErrorResponse) :=
  if jHasKey "error" data then
    (ErrorResponse.from_raw data).map .err
  else
    (data.mapM (fun (kv : String × Json) =>
      match kv.2 with
      | .obj inner =>
          (ExchangePriceResponse.from_raw tzOff inner).map
            (fun (m : ExchangePriceResponse) => { m with identifier := some kv.1 })
      | _ => none)).map .ok

/-- `models.RealtimePriceResponse`.  `high`/`low` are copied verbatim;
`high_time`/`low_time` keep the raw value when it is falsy
(`inl`) and are converted from epoch seconds when truthy (`inr`); `id` is
assigned afterwards by the service loop. -/
structure RealtimePriceResponse where
  id : Option Int
  high : Json
  low : Json
  high_time : Json ⊕ PyDateTime
  low_time : Json ⊕ PyDateTime

/-- `self._dt_from_epoch(v) if v else v`: falsy values are kept raw, truthy
numbers (and `True`, an `int` in Python) are converted, anything else makes
`fromtimestamp` raise (`none`). -/
def timeFieldVal (tzOff : Int) (j : Json) : Option (Json ⊕ PyDateTime) :=
  if j.truthy then
    match j with
    | .num n => some (.inr (dt_from_epoch tzOff n false))
    | .bool _ => some (.inr (dt_from_epoch tzOff 1 false))
    | _ => none
  else some (.inl j)

/-- `RealtimePriceResponse.from_raw`. -/
def RealtimePriceResponse.from_raw (tzOff : Int) (data : List (String × Json)) :
    Option RealtimePriceResponse := do
  let highTime ← jLookup "highTime" data
  let lowTime ← jLookup "lowTime" data
  let high ← jLookup "high" data
  let low ← jLookup "low" data
  let ht ← timeFieldVal tzOff highTime
  let lt ← timeFieldVal tzOff lowTime
  pure ⟨none, high, low, ht, lt⟩

/-- Python `int(s)` on a string: optional sign followed by decimal digits;
`none` models the `ValueError`. -/
def pyInt (s : String) : Option Int :=
  let digits : List Char → Option Int := fun cs =>
    if cs ≠ [] ∧ cs.all (fun c => (digitVal c).isSome) then
      some (cs.foldl (fun acc c => acc * 10 + ((c.toNat : Int) - 48)) 0)
    else none
  match s.data with
  | '-' :: rest => (digits rest).map (fun n => -n)
  | '+' :: rest => digits rest
  | cs => digits cs

/-- The decode stage of `RealtimeService.get_price`
(src/rswiki_wrapper/services/realtime_wiki.py): error branch on an `error`
key, otherwise iterate `data["data"].items()`, decode each record and stamp
`int(item_id)` onto `id`. -/
def decodeRealtimePrice (tzOff : Int) (data : List (String × Json)) :
    Option (PyResult (List RealtimePriceResponse) ErrorResponse) :=
  if jHasKey "error" data then
    (ErrorResponse.from_raw data).map .err
  else
    match jLookup "data" data with
    | some (.obj entries) =>
        (entries.mapM (fun (kv : String × Json) =>
          match kv.2 with
          | .obj inner => do
              let price ← RealtimePriceResponse.from_raw tzOff inner
              let n ← pyInt kv.1
              pure { price with id := some n }
          | _ => none)).map .ok
    | _ => none

/-- Library error kinds (src/rswiki_wrapper/errors.py). -/
inductive RsError where
  | missingArgument (msg : String)
  | conflictingArgument (args : List String)
deriving DecidableEq, Repr

/-- The formatted exception message built by each error's `__init__`. -/
def RsError.message : RsError → String
  | .missingArgument msg => "Missing required argument: " ++ msg
  | .conflictingArgument args => "Arguments conflict: " ++ String.intercalate ", " args

/-- Python truthiness of an `int | None` argument. -/
def optIntTruthy : Option Int → Bool
  | none => false
  | some v => v != 0

/-- Python truthiness of a `str | None` argument. -/
def optStrTruthy : Option String → Bool
  | none => false
  | some v => !(v = "")

/-- Python truthiness of a stored `str | int` parameter value. -/
def pvalTruthy : PValue → Bool
  | .s v => !(v = "")
  | .i v => v != 0

/-- `if locale: params["lang"] = locale.value` — the optional `lang` insert
shared by the facade operations (a `Locale` member is always truthy). -/
def addLang (locale : Option Locale) (params : Params) : Params :=
  match locale with
  | some l => dictInsert "lang" (.s l.value) params
  | none => params

/-- `if id: params["id"] = id` — `id=0` and `id=None` are both falsy. -/
def addOptId (id : Option Int) (params : Params) : Params :=
  match id with
  | some v => if v != 0 then dictInsert "id" (.i v) params else params
  | none => params

/-- `if name: params["name"] = name` — `""` and `None` are both falsy. -/
def addOptName (name : Option String) (params : Params) : Params :=
  match name with
  | some v => if !(v = "") then dictInsert "name" (.s v) params else params
  | none => params

/-- `if dt: params[k] = dt.isoformat()` — a `datetime` is always truthy. -/
def addOptStr (k : String) (x : Option String) (params : Params) : Params :=
  match x with
  | some s => dictInsert k (.s s) params
  | none => params

/-- `if count: params["number"] = count` — `count=0` is falsy. -/
def addCount (count : Option Int) (params : Params) : Params :=
  match count with
  | some c => if c != 0 then dictInsert "number" (.i c) params else params
  | none => params

/-- The pre-fetch stage of `WeirdGloopService.get_latest_exchange_price`:
validate, partition ids and names into pipe-joined params, add `lang`,
compile the route.  `Except.error` models the raised exception. -/
def latestExchangePrepare (game : WgGameType) (ids_or_names : List ArgVal)
    (locale : Option Locale) : Except RsError CompiledRoute :=
  if ids_or_names = [] then
    .error (.missingArgument "You must specify at least 1 id or name.")
  else
    let ids := String.intercalate "|"
      (ids_or_names.filterMap (fun a => match a with | .i v => some (toString v) | .s _ => none))
    let params : Params := if ids = "" then [] else dictInsert "id" (.s ids) []
    let names := String.intercalate "|"
      (ids_or_names.filterMap (fun a => match a with | .s v => some v | .i _ => none))
    let params := if names = "" then params else dictInsert "name" (.s names) params
    let params := addLang locale params
    .ok ((LATEST_EXCHANGE_PRICE.compile [.s game.value]).with_params params)

/-- `WeirdGloopService._set_price_params_and_fetch` up to the fetch call:
truthiness-based id/name validation, param assembly, route compilation.
`params0` is the dict passed in by the caller (`{}` or `{"compress": "true"}`). -/
def setPriceParamsPrepare (game : WgGameType) (time_filter : WgTimeFilter)
    (id : Option Int) (name : Option String) (locale : Option Locale)
    (params0 : Params) : Except RsError CompiledRoute :=
  if !optIntTruthy id ∧ !optStrTruthy name then
    .error (.missingArgument "You must specify at least 1 id or name.")
  else
    let params := addOptId id params0
    let params := addOptName name params
    let params := addLang locale params
    .ok ((HISTORICAL_EXCHANGE_PRICE.compile [.s game.value, .s time_filter.value]).with_params
      params)

/-- `WeirdGloopService._set_generic_tms_params`: conflict check, then the
optional `start`/`end`/`number` params.  `start_at`/`end_at` stand for the
`datetime` arguments, carried as their `isoformat()` rendering (a `datetime`
object is always truthy). -/
def setGenericTmsParams (start_at end_at : Option String) (count : Option Int)
    (params : Params) : Except RsError Params :=
  if count.isSome ∧ end_at.isSome then
    .error (.conflictingArgument ["count", "end_at"])
  else
    let params := addOptStr "start" start_at params
    let params := addOptStr "end" end_at params
    let params := addCount count params
    .ok params

/-- `WeirdGloopService._set_tms_name_params_and_fetch` up to the fetch call. -/
def setTmsNameParamsPrepare (names : List String) (locale : Option Locale)
    (start_at end_at : Option String) (count : Option Int)
    (params0 : Params) : Except RsError CompiledRoute :=
  if names = [] then
    .error (.missingArgument "please provide one or more names.")
  else
    let params := dictInsert "name" (.s (String.intercalate "|" names)) params0
    let params := addLang locale params
    match setGenericTmsParams start_at end_at count params with
    | .error e => .error e
    | .ok params => .ok ((TMS_SEARCH.compile []).with_params params)

/-- `WeirdGloopService._set_tms_id_params_and_fetch` up to the fetch call:
note the `lang = "id"` default injected when no truthy `lang` is present. -/
def setTmsIdParamsPrepare (ids : List Int) (start_at end_at : Option String)
    (count : Option Int) (params0 : Params) : Except RsError CompiledRoute :=
  if ids = [] then
    .error (.missingArgument "please provide one or more ids.")
  else
    let params := dictInsert "id" (.s (String.intercalate "|" (ids.map toString))) params0
    let params :=
      match lookupP "lang" params with
      | some v => if pvalTruthy v then params else dictInsert "lang" (.s "id") params
      | none => dictInsert "lang" (.s "id") params
    match setGenericTmsParams start_at end_at count params with
    | .error e => .error e
    | .ok params => .ok ((TMS_SEARCH.compile []).with_params params)

/-- The pre-fetch stage of `RealtimeService.get_price`: the optional `id`
is added only when truthy. -/
def realtimePricePrepare (game : RtGameType) (id : Option Int) : CompiledRoute :=
  let params : Params := match id with
    | some v => if v != 0 then [("id", .i v)] else []
    | none => []
  (REALTIME_PRICE.compile [.s game.value]).with_params params

/-- The pre-fetch stage of `RealtimeService.get_avg_price`: an optional
`timestamp` (carried as its epoch value, `int(timestamp.timestamp())`) is
rounded down to a 300-second boundary. -/
def avgPricePrepare (game : TimeSeriesGameType) (time_filter : RtTimeFilter)
    (epoch : Option Int) : CompiledRoute :=
  let params : Params := match epoch with
    | some e => [("timestamp", .i (e - e % 300))]
    | none => []
  (REALTIME_AVG_PRICE.compile [.s game.value, .s time_filter.value]).with_params params

/-! Helper lemmas about the dict model. -/

theorem lookupP_dictInsert (k k' : String) (v : PValue) (d : Params) :
    lookupP k (dictInsert k' v d) = if k' = k then some v else lookupP k d := by
  induction d with
  | nil => simp [dictInsert, lookupP]
  | cons p rest ih =>
      obtain ⟨a, b⟩ := p
      simp only [dictInsert]
      by_cases hak : a = k'
      · subst hak
        simp only [if_pos rfl, lookupP]
        split_ifs <;> simp_all [lookupP]
      · simp only [if_neg hak, lookupP, ih]
        split_ifs <;> simp_all

theorem lookupP_eq_none_iff (k : String) (l : Params) :
    lookupP k l = none ↔ ∀ p ∈ l, p.1 ≠ k := by
  induction l with
  | nil => simp [lookupP]
  | cons p rest ih =>
      obtain ⟨a, b⟩ := p
      by_cases hak : a = k
      · subst hak
        simp [lookupP]
      · simp [lookupP, hak, ih]

theorem dictInsert_eq_append (k : String) (v : PValue) (d : Params)
    (h : lookupP k d = none) : dictInsert k v d = d ++ [(k, v)] := by
  induction d with
  | nil => simp [dictInsert]
  | cons p rest ih =>
      obtain ⟨a, b⟩ := p
      simp only [lookupP] at h
      by_cases hak : a = k
      · simp [hak] at h
      · simp only [if_neg hak] at h
        simp [dictInsert, fun h' => hak (h' : a = k), ih h]

theorem lookupP_dictUpdate_of_none (k : String) (ps : Params)
    (h : lookupP k ps = none) : ∀ d, lookupP k (dictUpdate d ps) = lookupP k d := by
  induction ps with
  | nil => intro d; simp [dictUpdate]
  | cons p rest ih =>
      intro d
      obtain ⟨a, b⟩ := p
      simp only [lookupP] at h
      by_cases hak : a = k
      · simp [hak] at h
      · simp only [if_neg hak] at h
        show lookupP k (dictUpdate (dictInsert a b d) rest) = lookupP k d
        rw [ih h, lookupP_dictInsert, if_neg hak]

theorem lookupP_dictUpdate_last (k : String) (v : PValue) (ps : Params) (d : Params) :
    lookupP k (dictUpdate d (ps ++ [(k, v)])) = some v := by
  show lookupP k ((ps ++ [(k, v)]).foldl (fun acc kv => dictInsert kv.1 kv.2 acc) d) = some v
  rw [List.foldl_append]
  show lookupP k (dictInsert k v _) = some v
  rw [lookupP_dictInsert, if_pos rfl]

theorem with_params_params (c : CompiledRoute) (ps : Params) :
    (c.with_params ps).params = dictUpdate c.params ps := rfl

theorem lookupP_ite (k : String) (c : Prop) [Decidable c] (d1 d2 : Params) :
    lookupP k (if c then d1 else d2) = if c then lookupP k d1 else lookupP k d2 := by
  split_ifs <;> rfl

theorem lookupP_some_mem (k : String) (v : PValue) (l : Params)
    (h : lookupP k l = some v) : (k, v) ∈ l := by
  induction l with
  | nil => simp [lookupP] at h
  | cons p rest ih =>
      obtain ⟨a, b⟩ := p
      simp only [lookupP] at h
      by_cases hak : a = k
      · subst hak
        rw [if_pos rfl] at h
        cases h
        simp
      · rw [if_neg hak] at h
        simp [ih h]

theorem mem_dictInsert (p : String × PValue) (k : String) (v : PValue) (d : Params)
    (h : p ∈ dictInsert k v d) : p = (k, v) ∨ p ∈ d := by
  induction d with
  | nil => simpa [dictInsert] using h
  | cons q rest ih =>
      obtain ⟨a, b⟩ := q
      simp only [dictInsert] at h
      by_cases hak : a = k
      · rw [if_pos hak] at h
        rcases List.mem_cons.mp h with h | h
        · exact Or.inl h
        · exact Or.inr (List.mem_cons_of_mem _ h)
      · rw [if_neg hak] at h
        rcases List.mem_cons.mp h with h | h
        · exact Or.inr (h ▸ List.mem_cons_self _ _)
        · rcases ih h with h | h
          · exact Or.inl h
          · exact Or.inr (List.mem_cons_of_mem _ h)

theorem lookupP_dictUpdate_unique (k : String) (v : PValue) (ps : Params)
    (hsome : lookupP k ps = some v)
    (huniq : ∀ p ∈ ps, p.1 = k → p.2 = v) :
    ∀ d, lookupP k (dictUpdate d ps) = some v := by
  induction ps with
  | nil => simp [lookupP] at hsome
  | cons q rest ih =>
      intro d
      obtain ⟨a, b⟩ := q
      show lookupP k (dictUpdate (dictInsert a b d) rest) = some v
      simp only [lookupP] at hsome
      by_cases hak : a = k
      · subst hak
        rw [if_pos rfl] at hsome
        injection hsome with hbv
        subst hbv
        by_cases hrest : lookupP a rest = none
        · rw [lookupP_dictUpdate_of_none _ _ hrest, lookupP_dictInsert, if_pos rfl]
        · obtain ⟨v2, hv2⟩ := Option.ne_none_iff_exists'.mp hrest
          have hv2v : v2 = b := huniq (a, v2)
            (List.mem_cons_of_mem _ (lookupP_some_mem _ _ _ hv2)) rfl
          subst hv2v
          exact ih hv2 (fun p hp => huniq p (List.mem_cons_of_mem _ hp)) _
      · rw [if_neg hak] at hsome
        exact ih hsome (fun p hp => huniq p (List.mem_cons_of_mem _ hp)) _

theorem lookupP_addLang_some (l : Locale) (d : Params) :
    lookupP "lang" (addLang (some l) d) = some (.s l.value) := by
  show lookupP "lang" (dictInsert "lang" (.s l.value) d) = some (.s l.value)
  rw [lookupP_dictInsert, if_pos rfl]

theorem lookupP_addLang_other (k : String) (hk : k ≠ "lang") (loc : Option Locale)
    (d : Params) : lookupP k (addLang loc d) = lookupP k d := by
  rcases loc with _ | l
  · rfl
  · show lookupP k (dictInsert "lang" (.s l.value) d) = lookupP k d
    rw [lookupP_dictInsert, if_neg (fun h => hk h.symm)]

theorem lookupP_addOptId_other (k : String) (hk : k ≠ "id") (id : Option Int) (d : Params) :
    lookupP k (addOptId id d) = lookupP k d := by
  rcases id with _ | v
  · rfl
  · show lookupP k (if v != 0 then dictInsert "id" (.i v) d else d) = lookupP k d
    split_ifs
    · rw [lookupP_dictInsert, if_neg (fun h => hk h.symm)]
    · rfl

theorem lookupP_addOptName_other (k : String) (hk : k ≠ "name") (n : Option String)
    (d : Params) : lookupP k (addOptName n d) = lookupP k d := by
  rcases n with _ | v
  · rfl
  · show lookupP k (if !(v = "") then dictInsert "name" (.s v) d else d) = lookupP k d
    split_ifs
    · rw [lookupP_dictInsert, if_neg (fun h => hk h.symm)]
    · rfl

theorem lookupP_addOptStr_other (k k0 : String) (hk : k ≠ k0) (x : Option String)
    (d : Params) : lookupP k (addOptStr k0 x d) = lookupP k d := by
  rcases x with _ | v
  · rfl
  · show lookupP k (dictInsert k0 (.s v) d) = lookupP k d
    rw [lookupP_dictInsert, if_neg (fun h => hk h.symm)]

theorem lookupP_addCount_other (k : String) (hk : k ≠ "number") (c : Option Int)
    (d : Params) : lookupP k (addCount c d) = lookupP k d := by
  rcases c with _ | v
  · rfl
  · show lookupP k (if v != 0 then dictInsert "number" (.i v) d else d) = lookupP k d
    split_ifs
    · rw [lookupP_dictInsert, if_neg (fun h => hk h.symm)]
    · rfl

theorem mem_addLang (p : String × PValue) (loc : Option Locale) (d : Params)
    (hp : p ∈ addLang loc d) : p.1 = "lang" ∨ p ∈ d := by
  rcases loc with _ | l
  · exact Or.inr hp
  · rcases mem_dictInsert _ _ _ _ hp with rfl | hp
    · exact Or.inl rfl
    · exact Or.inr hp

theorem mem_addOptId (p : String × PValue) (id : Option Int) (d : Params)
    (hp : p ∈ addOptId id d) : p.1 = "id" ∨ p ∈ d := by
  rcases id with _ | v
  · exact Or.inr hp
  · revert hp
    show p ∈ (if v != 0 then dictInsert "id" (.i v) d else d) → _
    split_ifs <;> intro hp
    · rcases mem_dictInsert _ _ _ _ hp with rfl | hp
      · exact Or.inl rfl
      · exact Or.inr hp
    · exact Or.inr hp

theorem mem_addOptName (p : String × PValue) (n : Option String) (d : Params)
    (hp : p ∈ addOptName n d) : p.1 = "name" ∨ p ∈ d := by
  rcases n with _ | v
  · exact Or.inr hp
  · revert hp
    show p ∈ (if !(v = "") then dictInsert "name" (.s v) d else d) → _
    split_ifs <;> intro hp
    · rcases mem_dictInsert _ _ _ _ hp with rfl | hp
      · exact Or.inl rfl
      · exact Or.inr hp
    · exact Or.inr hp

theorem mem_addOptStr (p : String × PValue) (k0 : String) (x : Option String) (d : Params)
    (hp : p ∈ addOptStr k0 x d) : p.1 = k0 ∨ p ∈ d := by
  rcases x with _ | v
  · exact Or.inr hp
  · rcases mem_dictInsert _ _ _ _ hp with rfl | hp
    · exact Or.inl rfl
    · exact Or.inr hp

theorem mem_addCount (p : String × PValue) (c : Option Int) (d : Params)
    (hp : p ∈ addCount c d) : p.1 = "number" ∨ p ∈ d := by
  rcases c with _ | v
  · exact Or.inr hp
  · revert hp
    show p ∈ (if v != 0 then dictInsert "number" (.i v) d else d) → _
    split_ifs <;> intro hp
    · rcases mem_dictInsert _ _ _ _ hp with rfl | hp
      · exact Or.inl rfl
      · exact Or.inr hp
    · exact Or.inr hp

theorem compile_params (r : Route) (args : List ArgVal) :
    (r.compile args).params = [] := rfl

/-! Helper lemmas about placeholder counting and substitution. -/

theorem countPH_cons_skip (a : Char) (l : List Char)
    (h : ∀ b, l.head? = some b → ¬(a = '\x7b' ∧ b = '\x7d')) :
    countPH (a :: l) = countPH l := by
  cases l with
  | nil => simp [countPH]
  | cons b rest =>
      have hb := h b rfl
      simp [countPH, if_neg hb]

theorem countPH_append_braceFree (rep : List Char)
    (hrep : ∀ c ∈ rep, c ≠ '\x7b' ∧ c ≠ '\x7d') (t : List Char) :
    countPH (rep ++ t) = countPH t := by
  induction rep with
  | nil => simp
  | cons r rest ih =>
      have hr := hrep r (by simp)
      have hrest : ∀ c ∈ rest, c ≠ '\x7b' ∧ c ≠ '\x7d' := by
        intro c hc; exact hrep c (by simp [hc])
      rw [List.cons_append, countPH_cons_skip, ih hrest]
      intro b _ hab
      exact hr.1 hab.1

theorem replaceOnce_of_countPH_zero (rep : List Char) (s : List Char)
    (h : countPH s = 0) : replaceOnce rep s = s := by
  induction s with
  | nil => simp [replaceOnce]
  | cons a s' ih =>
      cases s' with
      | nil => simp [replaceOnce]
      | cons b rest =>
          by_cases hab : a = '\x7b' ∧ b = '\x7d'
          · simp [countPH, if_pos hab] at h
          · simp only [countPH, if_neg hab] at h
            simp [replaceOnce, if_neg hab, ih h]

theorem replaceOnce_head_ne (rep : List Char) (hne : rep ≠ [])
    (hrep : ∀ c ∈ rep, c ≠ '\x7b' ∧ c ≠ '\x7d')
    (b : Char) (hb : b ≠ '\x7d') (rest : List Char) :
    ∀ x, (replaceOnce rep (b :: rest)).head? = some x → x ≠ '\x7d' := by
  intro x hx
  cases rest with
  | nil =>
      simp [replaceOnce] at hx
      subst hx
      exact hb
  | cons c rest' =>
      by_cases hbc : b = '\x7b' ∧ c = '\x7d'
      · simp only [replaceOnce, if_pos hbc] at hx
        cases rep with
        | nil => exact absurd rfl hne
        | cons r rs =>
            simp at hx
            subst hx
            exact (hrep r (by simp)).2
      · simp only [replaceOnce, if_neg hbc, List.head?] at hx
        cases hx
        exact hb

theorem countPH_replaceOnce (rep : List Char) (hne : rep ≠ [])
    (hrep : ∀ c ∈ rep, c ≠ '\x7b' ∧ c ≠ '\x7d') (s : List Char) :
    countPH (replaceOnce rep s) = countPH s - 1 := by
  induction s with
  | nil => simp [replaceOnce, countPH]
  | cons a s' ih =>
      cases s' with
      | nil => simp [replaceOnce, countPH]
      | cons b rest =>
          by_cases hab : a = '\x7b' ∧ b = '\x7d'
          · simp only [replaceOnce, if_pos hab, countPH]
            rw [countPH_append_braceFree rep hrep]
            simp [countPH, if_pos hab]
          · simp only [replaceOnce, if_neg hab]
            have hskip : countPH (a :: replaceOnce rep (b :: rest)) =
                countPH (replaceOnce rep (b :: rest)) := by
              apply countPH_cons_skip
              intro x hx hcon
              by_cases ha : a = '\x7b'
              · have hbZ : b ≠ '\x7d' := fun hbb => hab ⟨ha, hbb⟩
                exact replaceOnce_head_ne rep hne hrep b hbZ rest x hx hcon.2
              · exact ha hcon.1
            rw [hskip, ih]
            have : countPH (a :: b :: rest) = countPH (b :: rest) := by
              simp [countPH, if_neg hab]
            rw [this]

theorem countPH_compile_fold (args : List ArgVal)
    (hargs : ∀ a ∈ args, a.str.data ≠ [] ∧ ∀ c ∈ a.str.data, c ≠ '\x7b' ∧ c ≠ '\x7d') :
    ∀ u : List Char,
      countPH (args.foldl (fun u a => replaceOnce a.str.data u) u) =
        countPH u - args.length := by
  induction args with
  | nil => intro u; simp
  | cons a args' ih =>
      intro u
      have ha := hargs a (by simp)
      have hrest : ∀ x ∈ args', x.str.data ≠ [] ∧
          ∀ c ∈ x.str.data, c ≠ '\x7b' ∧ c ≠ '\x7d' := by
        intro x hx; exact hargs x (by simp [hx])
      simp only [List.foldl_cons]
      rw [ih hrest (replaceOnce a.str.data u),
        countPH_replaceOnce a.str.data ha.1 ha.2, List.length_cons]
      omega

/-- `s ++ "" = s` for strings. -/
theorem str_append_empty (s : String) : s ++ "" = s := by
  cases s with
  | mk data =>
      show String.mk (data ++ []) = String.mk data
      rw [List.append_nil]

/-! Helper lemmas about `rstripZ`. -/

theorem rstripZ_append_Z (l : List Char) : rstripZ (l ++ ['Z']) = rstripZ l := by
  simp [rstripZ, List.reverse_append]

theorem rstripZ_of_getLast_ne (l : List Char) (h : l.getLast? ≠ some 'Z') :
    rstripZ l = l := by
  unfold rstripZ
  rw [← List.head?_reverse] at h
  cases hrev : l.reverse with
  | nil =>
      have : l = [] := by simpa using congrArg List.reverse hrev
      simp [this, hrev]
  | cons a t =>
      rw [hrev] at h
      simp only [List.head?] at h
      have ha : ¬(a = 'Z') := fun hc => h (by rw [hc])
      rw [List.dropWhile_cons, if_neg (by simpa using ha)]
      rw [← hrev, List.reverse_reverse]

/-! The claims. -/

/-- C2, counterexample: `Route.compile` does not validate argument counts.
Compiling the two-placeholder historical-exchange-price route with a single
argument returns normally (no `MissingArgumentError`-kind failure is even
possible in its type) and leaves one `\x7b\x7d` placeholder in the uri,
falsifying the claim that a count mismatch raises. -/
theorem C2_compile_counterexample :
    HISTORICAL_EXCHANGE_PRICE.compile [ArgVal.s "rs"]
      = ⟨.weirdGloop, "/exchange/history/rs/\x7b\x7d", []⟩
    ∧ countPH (HISTORICAL_EXCHANGE_PRICE.compile [ArgVal.s "rs"]).uri.data = 1
    ∧ List.length [ArgVal.s "rs"] ≠ countPH HISTORICAL_EXCHANGE_PRICE.uri.data :=
  ⟨rfl, rfl, by decide⟩

/-- C2, amended: `Route.compile` substitutes placeholders left-to-right with
the string forms of the arguments and never raises.  For arguments whose
string forms are nonempty and brace-free, the number of placeholders left in
the compiled uri is the original count minus the argument count (so a
matching count leaves none, too few arguments leave placeholders behind, and
extra arguments are ignored); a mismatch does not raise
`MissingArgumentError`. -/
theorem C2_compile_subst :
    (∀ (r : Route) (args : List ArgVal),
      (∀ a ∈ args, a.str.data ≠ [] ∧ ∀ c ∈ a.str.data, c ≠ '\x7b' ∧ c ≠ '\x7d') →
      countPH (r.compile args).uri.data = countPH r.uri.data - args.length)
    ∧ (HISTORICAL_EXCHANGE_PRICE.compile [ArgVal.s "rs", ArgVal.s "all"]).uri
        = "/exchange/history/rs/all"
    ∧ (HISTORICAL_EXCHANGE_PRICE.compile [ArgVal.s "rs"]).uri
        = "/exchange/history/rs/\x7b\x7d" := by
  refine ⟨?_, rfl, rfl⟩
  intro r args hargs
  exact countPH_compile_fold args hargs r.uri.data

/-- C2 witness: the general substitution-count statement applied to the
historical route with a matching pair of brace-free arguments. -/
theorem C2_compile_subst_witness :
    countPH (HISTORICAL_EXCHANGE_PRICE.compile [ArgVal.s "rs", ArgVal.s "all"]).uri.data
      = countPH HISTORICAL_EXCHANGE_PRICE.uri.data - 2 :=
  C2_compile_subst.1 HISTORICAL_EXCHANGE_PRICE [ArgVal.s "rs", ArgVal.s "all"] (by decide)

/-- C5: the claim is right about the intended fallback chain and the code has
a typo.  `"5 de setembro de 2023"` hits the lookup entry
`"setembro" ↦ "Semptember"`, a misspelling no English month matches, so the
reparse raises (`none`) instead of producing 2023-09-05; for months whose
translation is spelled correctly (e.g. `julho`) the chain works exactly as
claimed, matching the English equivalent. -/
theorem C5_pt_month_divergence :
    tmsParseDate "5 de setembro de 2023" = none
    ∧ PT_MONTH_MAPPING "setembro" = some "Semptember"
    ∧ monthFromName "semptember" = none
    ∧ dt_from_strp "5 September 2023" = some ⟨2023, 9, 5, 0, 0, 0, 0⟩
    ∧ tmsParseDate "5 de julho de 2023" = dt_from_strp "5 July 2023"
    ∧ tmsParseDate "5 de julho de 2023" = some ⟨2023, 7, 5, 0, 0, 0, 0⟩ :=
  ⟨rfl, rfl, rfl, rfl, rfl, rfl⟩

/-- C7: `unwrap` on `Ok(v)` returns `v` and `unwrap_err` on `Ok(v)` raises an
`UnwrapError` whose message includes the stringified `v`; `unwrap_err` on
`Err(e)` returns `e` and `unwrap` on `Err(e)` raises an `UnwrapError` whose
message includes the stringified `e`. -/
theorem C7_unwrap_spec {T E : Type} (v : T) (e : E)
    (strT : T → String) (strE : E → String) :
    (PyResult.ok (E := E) v).unwrap strE = .ok v
    ∧ (PyResult.ok (E := E) v).unwrap_err strT
        = .error ("Unwrap failed: Called unwrap error on an non error value - " ++ strT v)
    ∧ strContains ("Unwrap failed: Called unwrap error on an non error value - " ++ strT v)
        (strT v)
    ∧ (PyResult.err (T := T) e).unwrap_err strT = .ok e
    ∧ (PyResult.err (T := T) e).unwrap strE
        = .error ("Unwrap failed: Called unwrap on an error value - " ++ strE e)
    ∧ strContains ("Unwrap failed: Called unwrap on an error value - " ++ strE e) (strE e) :=
  ⟨rfl, rfl,
    ⟨"Unwrap failed: Called unwrap error on an non error value - ", "",
      (str_append_empty _).symm⟩,
    rfl, rfl,
    ⟨"Unwrap failed: Called unwrap on an error value - ", "",
      (str_append_empty _).symm⟩⟩

/-- C9: when a timestamp is supplied to the realtime time-averaged price
operation, the `timestamp` query parameter equals the epoch value rounded
down to the nearest 300-second boundary: divisible by 300, at most the
original value, and less than 300 seconds below it. -/
theorem C9_avg_price_timestamp (game : TimeSeriesGameType) (tf : RtTimeFilter) (e : Int) :
    (avgPricePrepare game tf (some e)).params = [("timestamp", .i (e - e % 300))]
    ∧ (300 : Int) ∣ (e - e % 300)
    ∧ e - e % 300 ≤ e
    ∧ e - (e - e % 300) < 300 :=
  ⟨rfl, ⟨e / 300, by omega⟩, by omega, by omega⟩

/-- C1, counterexample: the raw input `\x7b"error": "no items found"\x7d`
does NOT yield an `Err` — `ErrorResponse.from_raw` reads the `success` field
first and the bare error object has none, so a `KeyError` escapes (`none`)
instead of an `Err` being returned. -/
theorem C1_counterexample :
    decodeLatestExchange 0 [("error", Json.str "no items found")] = none := rfl

/-- C1, amended: when the fetched raw JSON object contains an `error` key AND
the `success` key that `ErrorResponse.from_raw` also reads, the operation
returns (never raises) an `Err` wrapping an Error Model whose `error` field
equals the raw message and whose `is_ok` is false. -/
theorem C1_error_as_data (tz : Int) (kvs : List (String × Json)) (m sv : Json)
    (herr : jLookup "error" kvs = some m) (hsucc : jLookup "success" kvs = some sv) :
    decodeLatestExchange tz kvs = some (.err ⟨sv, m⟩)
    ∧ (ErrorResponse.mk sv m).error = m
    ∧ (PyResult.err (T := List ExchangePriceResponse) (ErrorResponse.mk sv m)).is_ok
        = false := by
  refine ⟨?_, rfl, rfl⟩
  unfold decodeLatestExchange
  rw [jHasKey, herr]
  simp [ErrorResponse.from_raw, herr, hsucc]

/-- C1 witness: the amended statement at a concrete error payload carrying
both keys. -/
theorem C1_error_as_data_witness :
    decodeLatestExchange 0 [("success", Json.bool false), ("error", Json.str "no items found")]
      = some (.err ⟨Json.bool false, Json.str "no items found"⟩)
    ∧ (ErrorResponse.mk (Json.bool false) (Json.str "no items found")).error
        = Json.str "no items found"
    ∧ (PyResult.err (T := List ExchangePriceResponse)
        (ErrorResponse.mk (Json.bool false) (Json.str "no items found"))).is_ok = false :=
  C1_error_as_data 0 _ _ _ rfl rfl

/-- C4, counterexample: the claimed example
`\x7b"4151": \x7b"price": 1200, "timestamp": 1690000000, "volume": 10\x7d\x7d`
decodes in neither id-keyed decoder: the exchange decoder requires the inner
record to carry its own `id` (`KeyError`), and the realtime decoder expects
the map under a `data` key with `high`/`low`/`highTime`/`lowTime` fields. -/
theorem C4_counterexample :
    decodeLatestExchange 0
      [("4151", Json.obj
        [("price", Json.num 1200), ("timestamp", Json.num 1690000000),
          ("volume", Json.num 10)])] = none
    ∧ decodeRealtimePrice 0
      [("4151", Json.obj
        [("price", Json.num 1200), ("timestamp", Json.num 1690000000),
          ("volume", Json.num 10)])] = none
    ∧ decodeRealtimePrice 0
      [("data", Json.obj [("4151", Json.obj
        [("price", Json.num 1200), ("timestamp", Json.num 1690000000),
          ("volume", Json.num 10)])])] = none :=
  ⟨rfl, rfl, rfl⟩

/-- C4, amended: id-keyed map decoding, as each decoder actually performs it.
The latest-exchange decoder produces exactly one model per entry, copies the
inner fields verbatim — including the record's own `id`, which must be
present — and stamps the entry key onto the model's `identifier` field, not
its `id`.  The realtime price decoder is the one that injects the numeric
key: it parses the key with `int(...)` and stamps it onto the model's `id`,
while its inner records carry `high`/`low`/`highTime`/`lowTime`. -/
theorem C4_id_keyed_decode (tz : Int) :
    (∀ (k : String) (idv pv vv : Json) (ts : Int), k ≠ "error" →
      decodeLatestExchange tz
        [(k, .obj [("id", idv), ("price", pv), ("volume", vv), ("timestamp", .num ts)])]
        = some (.ok [⟨idv, pv, vv, dt_from_epoch tz ts true, some k⟩]))
    ∧ (∀ (s : String) (n : Int) (h l : Json), pyInt s = some n →
      decodeRealtimePrice tz
        [("data", .obj [(s, .obj
          [("highTime", .null), ("lowTime", .null), ("high", h), ("low", l)])])]
        = some (.ok [⟨some n, h, l, .inl .null, .inl .null⟩])) := by
  constructor
  · intro k idv pv vv ts hk
    simp [decodeLatestExchange, jHasKey, jLookup, hk,
      ExchangePriceResponse.from_raw, List.mapM, List.mapM.loop]
  · intro s n h l hs
    simp [decodeRealtimePrice, jHasKey, jLookup,
      RealtimePriceResponse.from_raw, timeFieldVal, Json.truthy, hs,
      List.mapM, List.mapM.loop]

/-- C4 witness: both decode shapes at the concrete key `"4151"`. -/
theorem C4_id_keyed_decode_witness :
    decodeLatestExchange 0
      [("4151", Json.obj
        [("id", Json.str "4151"), ("price", Json.num 1200), ("volume", Json.num 10),
          ("timestamp", Json.num 1690000000)])]
      = some (.ok [⟨Json.str "4151", Json.num 1200, Json.num 10,
          dt_from_epoch 0 1690000000 true, some "4151"⟩])
    ∧ decodeRealtimePrice 0
      [("data", Json.obj [("4151", Json.obj
        [("highTime", Json.null), ("lowTime", Json.null), ("high", Json.num 5),
          ("low", Json.num 3)])])]
      = some (.ok [⟨some 4151, Json.num 5, Json.num 3, .inl Json.null, .inl Json.null⟩]) :=
  ⟨(C4_id_keyed_decode 0).1 "4151" _ _ _ 1690000000 (by decide),
    (C4_id_keyed_decode 0).2 "4151" 4151 _ _ rfl⟩

/-- C6, counterexample: an integer timestamp in the exchange-price decoder is
interpreted as epoch MILLIseconds, so a fixture carrying the instant
2023-07-22T04:26:40Z as epoch-seconds `1690000000` decodes to 1970-01-20,
not to the wall clock obtained from the equivalent ISO-8601 string. -/
theorem C6_counterexample :
    (ExchangePriceResponse.from_raw 0
      [("id", Json.str "2"), ("price", Json.num 1), ("volume", Json.null),
        ("timestamp", Json.num 1690000000)]).map ExchangePriceResponse.timestamp
      = some ⟨1970, 1, 20, 13, 26, 40, 0⟩
    ∧ (ExchangePriceResponse.from_raw 0
      [("id", Json.str "2"), ("price", Json.num 1), ("volume", Json.null),
        ("timestamp", Json.str "2023-07-22T04:26:40Z")]).map ExchangePriceResponse.timestamp
      = some ⟨2023, 7, 22, 4, 26, 40, 0⟩
    ∧ (⟨1970, 1, 20, 13, 26, 40, 0⟩ : PyDateTime) ≠ ⟨2023, 7, 22, 4, 26, 40, 0⟩ :=
  ⟨rfl, rfl, by decide⟩

/-- C6, amended: for every instant `t` (epoch seconds), decoding the integer
form `1000 * t` — the field is epoch milliseconds — and decoding an
ISO-8601 rendering of `t`'s UTC wall clock with a trailing `Z` produce the
same naive date/time value under the treat-trailing-Z-as-naive rule,
assuming the process-local timezone is UTC (offset 0). -/
theorem C6_millis_iso_agree (t : Int) (r : String) (dt : PyDateTime)
    (hparse : fromIsoFormat r.data = some dt)
    (hlast : r.data.getLast? ≠ some 'Z')
    (hdt : dt = fromTimestamp 0 t 0) :
    dt_from_iso (r ++ "Z") = some dt ∧ dt_from_epoch 0 (1000 * t) true = dt := by
  constructor
  · unfold dt_from_iso
    have hdata : (r ++ "Z").data = r.data ++ ['Z'] := rfl
    rw [hdata, rstripZ_append_Z, rstripZ_of_getLast_ne _ hlast, hparse]
  · have h1 : (1000 * t) / 1000 = t := by omega
    have h2 : ((1000 * t) % 1000) * 1000 = 0 := by omega
    simp [dt_from_epoch, h1, h2, hdt]

/-- C6 witness: the agreement at the concrete instant 1690000000. -/
theorem C6_millis_iso_agree_witness :
    dt_from_iso ("2023-07-22T04:26:40" ++ "Z") = some ⟨2023, 7, 22, 4, 26, 40, 0⟩
    ∧ dt_from_epoch 0 (1000 * 1690000000) true = ⟨2023, 7, 22, 4, 26, 40, 0⟩ :=
  C6_millis_iso_agree 1690000000 "2023-07-22T04:26:40" _ rfl (by decide) rfl

/-- C3: for every facade operation taking an optional locale argument
(latest exchange price, the two historical price variants via
`_set_price_params_and_fetch`, and the TMS search by name), a supplied
locale becomes a `lang` query parameter with its wire value, and an absent
locale leaves no `lang` parameter at all — no client-side default locale is
substituted on these operations.  (`params0` is the dict the caller passes
in; the actual callers pass `\x7b\x7d` or `\x7b"compress": "true"\x7d`,
which contain no `lang`.) -/
theorem C3_locale_lang_param :
    (∀ (game : WgGameType) (ids : List ArgVal) (l : Locale) (r : CompiledRoute),
      latestExchangePrepare game ids (some l) = .ok r →
        lookupP "lang" r.params = some (.s l.value))
    ∧ (∀ (game : WgGameType) (ids : List ArgVal) (r : CompiledRoute),
      latestExchangePrepare game ids none = .ok r → lookupP "lang" r.params = none)
    ∧ (∀ (game : WgGameType) (tf : WgTimeFilter) (id : Option Int) (name : Option String)
        (l : Locale) (params0 : Params) (r : CompiledRoute),
      lookupP "lang" params0 = none →
      setPriceParamsPrepare game tf id name (some l) params0 = .ok r →
        lookupP "lang" r.params = some (.s l.value))
    ∧ (∀ (game : WgGameType) (tf : WgTimeFilter) (id : Option Int) (name : Option String)
        (params0 : Params) (r : CompiledRoute),
      lookupP "lang" params0 = none →
      setPriceParamsPrepare game tf id name none params0 = .ok r →
        lookupP "lang" r.params = none)
    ∧ (∀ (names : List String) (l : Locale) (s e : Option String) (c : Option Int)
        (params0 : Params) (r : CompiledRoute),
      lookupP "lang" params0 = none →
      setTmsNameParamsPrepare names (some l) s e c params0 = .ok r →
        lookupP "lang" r.params = some (.s l.value))
    ∧ (∀ (names : List String) (s e : Option String) (c : Option Int)
        (params0 : Params) (r : CompiledRoute),
      lookupP "lang" params0 = none →
      setTmsNameParamsPrepare names none s e c params0 = .ok r →
        lookupP "lang" r.params = none) := by
  refine ⟨?_, ?_, ?_, ?_, ?_, ?_⟩
  · intro game ids l r hok
    unfold latestExchangePrepare at hok
    split at hok
    · exact absurd hok (by simp)
    · simp only [Except.ok.injEq] at hok
      subst hok
      rw [with_params_params, compile_params]
      split_ifs with h1 h2 <;>
        refine lookupP_dictUpdate_unique "lang" _ _ (lookupP_addLang_some l _) ?_ [] <;>
        · intro p hp hpl
          repeat' rcases mem_dictInsert _ _ _ _ hp with rfl | hp
          all_goals first
            | rfl
            | simp at hpl
            | exact absurd hp (List.not_mem_nil p)
  · intro game ids r hok
    unfold latestExchangePrepare at hok
    split at hok
    · exact absurd hok (by simp)
    · simp only [Except.ok.injEq] at hok
      subst hok
      rw [with_params_params, compile_params]
      refine (lookupP_dictUpdate_of_none _ _ ?_ _).trans rfl
      show lookupP "lang" (addLang none _) = none
      simp [addLang, lookupP_ite, lookupP_dictInsert, lookupP]
  · intro game tf id name l params0 r h0 hok
    unfold setPriceParamsPrepare at hok
    split at hok
    · exact absurd hok (by simp)
    · simp only [Except.ok.injEq] at hok
      subst hok
      rw [with_params_params, compile_params]
      have h0' := (lookupP_eq_none_iff _ _).mp h0
      refine lookupP_dictUpdate_unique "lang" _ _ (lookupP_addLang_some l _) ?_ []
      intro p hp hpl
      rcases mem_dictInsert _ _ _ _ hp with rfl | hp
      · rfl
      · rcases mem_addOptName _ _ _ hp with h2 | hp
        · rw [hpl] at h2; simp at h2
        · rcases mem_addOptId _ _ _ hp with h3 | hp
          · rw [hpl] at h3; simp at h3
          · exact absurd hpl (h0' p hp)
  · intro game tf id name params0 r h0 hok
    unfold setPriceParamsPrepare at hok
    split at hok
    · exact absurd hok (by simp)
    · simp only [Except.ok.injEq] at hok
      subst hok
      rw [with_params_params, compile_params]
      refine (lookupP_dictUpdate_of_none _ _ ?_ _).trans rfl
      show lookupP "lang" (addLang none _) = none
      rw [addLang, lookupP_addOptName_other _ (by decide),
        lookupP_addOptId_other _ (by decide), h0]
  · intro names l s e c params0 r h0 hok
    unfold setTmsNameParamsPrepare at hok
    split at hok
    · exact absurd hok (by simp)
    · dsimp only [] at hok
      split at hok
      · exact absurd hok (by simp)
      · rename_i ps heq
        simp only [Except.ok.injEq] at hok
        subst hok
        unfold setGenericTmsParams at heq
        split at heq
        · exact absurd heq (by simp)
        · simp only [Except.ok.injEq] at heq
          subst heq
          rw [with_params_params, compile_params]
          have h0' := (lookupP_eq_none_iff _ _).mp h0
          refine lookupP_dictUpdate_unique "lang" _ _ ?_ ?_ []
          · rw [lookupP_addCount_other _ (by decide),
              lookupP_addOptStr_other _ _ (by decide),
              lookupP_addOptStr_other _ _ (by decide), lookupP_addLang_some]
          · intro p hp hpl
            rcases mem_addCount _ _ _ hp with h | hp
            · rw [hpl] at h; simp at h
            · rcases mem_addOptStr _ _ _ _ hp with h | hp
              · rw [hpl] at h; simp at h
              · rcases mem_addOptStr _ _ _ _ hp with h | hp
                · rw [hpl] at h; simp at h
                · rcases mem_dictInsert _ _ _ _ hp with rfl | hp
                  · rfl
                  · rcases mem_dictInsert _ _ _ _ hp with rfl | hp
                    · simp at hpl
                    · exact absurd hpl (h0' p hp)
  · intro names s e c params0 r h0 hok
    unfold setTmsNameParamsPrepare at hok
    split at hok
    · exact absurd hok (by simp)
    · dsimp only [] at hok
      split at hok
      · exact absurd hok (by simp)
      · rename_i ps heq
        simp only [Except.ok.injEq] at hok
        subst hok
        unfold setGenericTmsParams at heq
        split at heq
        · exact absurd heq (by simp)
        · simp only [Except.ok.injEq] at heq
          subst heq
          rw [with_params_params, compile_params]
          refine (lookupP_dictUpdate_of_none _ _ ?_ _).trans rfl
          rw [lookupP_addCount_other _ (by decide),
            lookupP_addOptStr_other _ _ (by decide),
            lookupP_addOptStr_other _ _ (by decide)]
          show lookupP "lang" (dictInsert "name" _ params0) = none
          rw [lookupP_dictInsert, if_neg (by decide), h0]

/-- C3 witness: all six statements at concrete calls. -/
theorem C3_locale_lang_param_witness :
    lookupP "lang" (CompiledRoute.mk .weirdGloop "/exchange/history/rs/latest"
        [("id", .s "2"), ("lang", .s "pt")]).params = some (.s Locale.pt.value)
    ∧ lookupP "lang" (CompiledRoute.mk .weirdGloop "/exchange/history/rs/latest"
        [("id", .s "2")]).params = none
    ∧ lookupP "lang" (CompiledRoute.mk .weirdGloop "/exchange/history/rs/all"
        [("id", .i 2), ("lang", .s "en")]).params = some (.s Locale.en.value)
    ∧ lookupP "lang" (CompiledRoute.mk .weirdGloop "/exchange/history/rs/all"
        [("id", .i 2)]).params = none
    ∧ lookupP "lang" (CompiledRoute.mk .weirdGloop "/runescape/tms/search"
        [("name", .s "x"), ("lang", .s "pt")]).params = some (.s Locale.pt.value)
    ∧ lookupP "lang" (CompiledRoute.mk .weirdGloop "/runescape/tms/search"
        [("name", .s "x")]).params = none :=
  ⟨C3_locale_lang_param.1 .rs [.i 2] .pt _ rfl,
    C3_locale_lang_param.2.1 .rs [.i 2] _ rfl,
    C3_locale_lang_param.2.2.1 .rs .all (some 2) none .en [] _ rfl rfl,
    C3_locale_lang_param.2.2.2.1 .rs .all (some 2) none [] _ rfl rfl,
    C3_locale_lang_param.2.2.2.2.1 ["x"] .pt none none none [] _ rfl rfl,
    C3_locale_lang_param.2.2.2.2.2 ["x"] none none none [] _ rfl rfl⟩

/-- C8, counterexample: a TMS search call with BOTH `end_at` and `count`
set but an empty id list raises `MissingArgumentError`, not
`ConflictingArgumentError` — the emptiness check runs first — so the claim
does not hold of every call with both arguments set. -/
theorem C8_counterexample :
    setTmsIdParamsPrepare [] none (some "2023-01-01T00:00:00") (some 5) []
      = .error (.missingArgument "please provide one or more ids.") := rfl

/-- C8, amended: for every TMS search-style call whose name/id list is
nonempty, supplying both `end_at` and `count` raises a
`ConflictingArgumentError` naming both offending arguments, before any
fetch (the prepare stage returns the error; no route is ever produced);
with an empty list a `MissingArgumentError` is raised first, still before
any fetch. -/
theorem C8_conflicting_args (ids : List Int) (names : List String)
    (s : Option String) (e : String) (c : Int) (params0 : Params) :
    (ids ≠ [] → setTmsIdParamsPrepare ids s (some e) (some c) params0
        = .error (.conflictingArgument ["count", "end_at"]))
    ∧ (names ≠ [] → ∀ l, setTmsNameParamsPrepare names l s (some e) (some c) params0
        = .error (.conflictingArgument ["count", "end_at"]))
    ∧ strContains (RsError.conflictingArgument ["count", "end_at"]).message "count"
    ∧ strContains (RsError.conflictingArgument ["count", "end_at"]).message "end_at" := by
  have hconf : ∀ (P : Params), setGenericTmsParams s (some e) (some c) P
      = .error (.conflictingArgument ["count", "end_at"]) := by
    intro P
    unfold setGenericTmsParams
    rw [if_pos (by simp)]
  refine ⟨?_, ?_, ⟨"Arguments conflict: ", ", end_at", rfl⟩,
    ⟨"Arguments conflict: count, ", "", by rw [str_append_empty]; rfl⟩⟩
  · intro hids
    unfold setTmsIdParamsPrepare
    rw [if_neg hids]
    dsimp only []
    rw [hconf]
  · intro hnames l
    unfold setTmsNameParamsPrepare
    rw [if_neg hnames]
    dsimp only []
    rw [hconf]

/-- C8 witness: the amended statement at concrete calls with data present. -/
theorem C8_conflicting_args_witness :
    setTmsIdParamsPrepare [2] none (some "2023-01-01T00:00:00") (some 5) []
      = .error (.conflictingArgument ["count", "end_at"])
    ∧ setTmsNameParamsPrepare ["x"] none none (some "2023-01-01T00:00:00") (some 5) []
      = .error (.conflictingArgument ["count", "end_at"]) :=
  ⟨(C8_conflicting_args [2] ["x"] none "2023-01-01T00:00:00" 5 []).1 (by decide),
    (C8_conflicting_args [2] ["x"] none "2023-01-01T00:00:00" 5 []).2.1
      (by decide) none⟩

/-- C10: identifier truthiness at the facade.  With `id=0` and `name=None`
the historical-price prepare raises `MissingArgumentError` before any fetch
even though an id was supplied; with `id=0` and a non-empty name it
proceeds but silently omits the `id` parameter; and the realtime price
lookup with `id=0` sends no `id` parameter at all. -/
theorem C10_truthiness (game : WgGameType) (tf : WgTimeFilter) (locale : Option Locale) :
    (∀ params0, setPriceParamsPrepare game tf (some 0) none locale params0
        = .error (.missingArgument "You must specify at least 1 id or name."))
    ∧ (∀ (name : String), name ≠ "" → ∀ params0 : Params,
        lookupP "id" params0 = none → lookupP "name" params0 = none →
        ∀ r, setPriceParamsPrepare game tf (some 0) (some name) locale params0 = .ok r →
          lookupP "id" r.params = none ∧ lookupP "name" r.params = some (.s name))
    ∧ (∀ g : RtGameType, (realtimePricePrepare g (some 0)).params = []) := by
  refine ⟨?_, ?_, fun g => rfl⟩
  · intro params0
    unfold setPriceParamsPrepare
    rw [if_pos (by simp [optIntTruthy, optStrTruthy])]
  · intro name hname params0 hid0 hname0 r hok
    unfold setPriceParamsPrepare at hok
    rw [if_neg (by simp [optIntTruthy, optStrTruthy, hname])] at hok
    have hid : addOptId (some 0) params0 = params0 := by simp [addOptId]
    have hnm : addOptName (some name) params0 = dictInsert "name" (.s name) params0 := by
      simp [addOptName, hname]
    dsimp only [] at hok
    rw [hid, hnm] at hok
    simp only [Except.ok.injEq] at hok
    subst hok
    rw [with_params_params, compile_params]
    have hname0' := (lookupP_eq_none_iff _ _).mp hname0
    constructor
    · refine (lookupP_dictUpdate_of_none _ _ ?_ _).trans rfl
      rw [lookupP_addLang_other _ (by decide), lookupP_dictInsert, if_neg (by decide), hid0]
    · refine lookupP_dictUpdate_unique "name" _ _ ?_ ?_ []
      · rw [lookupP_addLang_other _ (by decide), lookupP_dictInsert, if_pos rfl]
      · intro p hp hpl
        rcases mem_addLang _ _ _ hp with h | hp
        · rw [hpl] at h; simp at h
        · rcases mem_dictInsert _ _ _ _ hp with rfl | hp
          · rfl
          · exact absurd hpl (hname0' p hp)

/-- C10 witness: the three statements at concrete calls. -/
theorem C10_truthiness_witness :
    setPriceParamsPrepare .rs .all (some 0) none none []
      = .error (.missingArgument "You must specify at least 1 id or name.")
    ∧ (lookupP "id" (CompiledRoute.mk .weirdGloop "/exchange/history/rs/all"
          [("name", .s "abc")]).params = none
      ∧ lookupP "name" (CompiledRoute.mk .weirdGloop "/exchange/history/rs/all"
          [("name", .s "abc")]).params = some (.s "abc"))
    ∧ (realtimePricePrepare .osrs (some 0)).params = [] :=
  ⟨(C10_truthiness .rs .all none).1 [],
    (C10_truthiness .rs .all none).2.1 "abc" (by decide) [] rfl rfl _ rfl,
    (C10_truthiness .rs .all none).2.2 .osrs⟩

end RsWiki
